import Mathlib

/-!
Shallow embedding of the nep5-faucet request-admission core
(src/app/faucet.py, ItemStore.ask_for_assets / ItemStore.app_success,
with the two pynamodb tables of src/app/db_models/).

Timestamps are modelled as integers (seconds).  The two DynamoDB tables
IPRequest and FaucetRequest are lists of records; a pynamodb query
with hash_key, range_key_condition (last_visited > past_week) and
limit=10 is modelled as a capped filter count.
-/

namespace Faucet

/-- week_in_sec = 60 * 60 * 24 * 7 from faucet.py line 240. -/
def week_in_sec : Int := 60 * 60 * 24 * 7

/-- One row of the IPRequest or FaucetRequest table: hash key
(ip_address resp. wallet_address), range key last_visited, and the
advisory ttl attribute. -/
structure ClaimRecord where
  identity : String
  timestamp : Int
  ttl : Int
deriving DecidableEq, Repr

/-- The counting loop of ask_for_assets: iterate the query
(hash_key = ident, range_key_condition: last_visited > since, limit=10)
and count the items.  The strict comparison and the cap of 10 are those
of faucet.py lines 258-262 and 280-284. -/
def countSince (tbl : List ClaimRecord) (ident : String) (since : Int) : Nat :=
  min (tbl.filter (fun r => r.identity == ident && decide (since < r.timestamp))).length 10

/-- A relayed transaction (the InvocationTransaction returned by _make_tx). -/
structure Tx where
  txid : String
deriving DecidableEq, Repr

/-- Result of the _make_tx call: either the InvocationTransaction, or
whatever other value tx turned out to be (stringified into the error
message at faucet.py line 318). -/
inductive TransferResult where
  | invocationTx (tx : Tx)
  | failed (detail : String)
deriving DecidableEq, Repr

/-- The mutable per-request server state touched by the routes: the two
tables and the sent_tx instance variable. -/
structure FaucetState where
  ipTable : List ClaimRecord
  walletTable : List ClaimRecord
  sentTx : Option Tx
deriving DecidableEq, Repr

/-- The rendering context fields the admission path writes: ctx error
and ctx message.  message is an Option because the dead branch at
faucet.py line 321 tests it against None. -/
structure Ctx where
  error : Bool
  message : Option String
deriving DecidableEq, Repr

/-- What a request to /ask observably returns: a redirect or a rendered
index page with its context. -/
inductive AskResult where
  | redirected (target : String)
  | rendered (ctx : Ctx)
deriving DecidableEq, Repr

def welcomeMsg : String := "Welcome to NEP-5 Faucet"

def ipDeniedMsg : String :=
  "You have requested too many times for this time period. Try again next week."

def walletDeniedMsg : String := "Already requested within the past week"

def mustInputMsg : String := "You must input a wallet address to proceed"

def txErrorMsg (d : String) : String := "Error constructing transaction: " ++ d

/-- Python str.strip(): drop leading and trailing whitespace
(faucet.py line 248). -/
def strip (s : String) : String :=
  ⟨((s.data.dropWhile Char.isWhitespace).reverse.dropWhile Char.isWhitespace).reverse⟩

/-- str(request.getHeader(key='x-real-ip')): Python str of the header
value, which is the string "None" when the header is absent. -/
def headerStr : Option String → String
  | none => "None"
  | some s => s

/-- ItemStore.ask_for_assets (faucet.py lines 215-330), the admission
pipeline.  balance is the wallet token balance of the rendering context;
addressArg is request.args' address_to entry when present; xRealIp the
x-real-ip header; transfer the outcome of _make_tx.  The proceed/step
flag machinery of the source is kept as let-rebindings.  The ttl written
is epoch-now + week_in_sec (line 241); both clocks of the source
(datetime.now and time()) are modelled by the single instant now. -/
def ask_for_assets (balance : Int) (addressArg : Option String)
    (xRealIp : Option String) (now : Int) (transfer : TransferResult)
    (st : FaucetState) : FaucetState × AskResult :=
  let st := { st with sentTx := none }
  let ctx : Ctx := { error := false, message := some welcomeMsg }
  let proceed := true
  let step : Nat := 0
  let past_week := now - week_in_sec
  let expire_date := now + week_in_sec
  if balance < 10000 then
    (st, .redirected "/")
  else
    match addressArg with
    | none =>
      (st, .rendered ctx)
    | some raw =>
      let address_to := strip raw
      let client := headerStr xRealIp
      let iprequest_item : ClaimRecord :=
        { identity := client, timestamp := now, ttl := expire_date }
      let (proceed, step, ctx) :=
        if proceed && step == 0 then
          if 3 ≤ countSince st.ipTable client past_week then
            (false, step, { ctx with message := some ipDeniedMsg, error := true })
          else
            (proceed, step + 1, ctx)
        else (proceed, step, ctx)
      let faucetrequest_item : ClaimRecord :=
        { identity := address_to, timestamp := now, ttl := expire_date }
      let (proceed, step, ctx, st) :=
        if proceed && step == 1 then
          if 1 ≤ countSince st.walletTable address_to past_week then
            (false, step, { ctx with message := some walletDeniedMsg, error := true }, st)
          else
            (proceed, step + 1, ctx,
             { st with
                ipTable := st.ipTable ++ [iprequest_item],
                walletTable := st.walletTable ++ [faucetrequest_item] })
        else (proceed, step, ctx, st)
      if proceed && step == 2 then
        match transfer with
        | .invocationTx tx => ({ st with sentTx := some tx }, .redirected "/success")
        | .failed d =>
          (st, .rendered { ctx with message := some (txErrorMsg d), error := true })
      else
        let ctx :=
          if ctx.message == none then
            { ctx with message := some mustInputMsg, error := true }
          else ctx
        (st, .rendered ctx)

/-- What a request to /success observably returns. -/
inductive SuccessResult where
  | redirected (target : String)
  | renderedTx (tx : Tx)
deriving DecidableEq, Repr

/-- ItemStore.app_success (faucet.py lines 332-354): redirect to the
index when no sent_tx is stored, otherwise render it and reset sent_tx. -/
def app_success (st : FaucetState) : FaucetState × SuccessResult :=
  match st.sentTx with
  | none => (st, .redirected "/")
  | some tx => ({ st with sentTx := none }, .renderedTx tx)

/-- A claim attempt at balance 10000 with address raw from header ip at
instant t whose _make_tx relays an InvocationTransaction with id txid. -/
def runClaim (raw ip : String) (t : Int) (txid : String) (st : FaucetState) :
    FaucetState × AskResult :=
  ask_for_assets 10000 (some raw) (some ip) t (.invocationTx ⟨txid⟩) st

theorem ask_spec (balance : Int) (raw : String) (xRealIp : Option String)
    (now : Int) (tr : TransferResult) (st : FaucetState)
    (hb : ¬ balance < 10000) :
    ask_for_assets balance (some raw) xRealIp now tr st =
      if 3 ≤ countSince st.ipTable (headerStr xRealIp) (now - week_in_sec) then
        ({ st with sentTx := none },
         .rendered { error := true, message := some ipDeniedMsg })
      else if 1 ≤ countSince st.walletTable (strip raw) (now - week_in_sec) then
        ({ st with sentTx := none },
         .rendered { error := true, message := some walletDeniedMsg })
      else
        match tr with
        | .invocationTx tx =>
          ({ ipTable := st.ipTable ++ [⟨headerStr xRealIp, now, now + week_in_sec⟩],
             walletTable := st.walletTable ++ [⟨strip raw, now, now + week_in_sec⟩],
             sentTx := some tx }, .redirected "/success")
        | .failed d =>
          ({ ipTable := st.ipTable ++ [⟨headerStr xRealIp, now, now + week_in_sec⟩],
             walletTable := st.walletTable ++ [⟨strip raw, now, now + week_in_sec⟩],
             sentTx := none },
           .rendered { error := true, message := some (txErrorMsg d) }) := by
  by_cases h1 : 3 ≤ countSince st.ipTable (headerStr xRealIp) (now - week_in_sec)
  · simp [ask_for_assets, hb, h1]
  · by_cases h2 : 1 ≤ countSince st.walletTable (strip raw) (now - week_in_sec)
    · simp [ask_for_assets, hb, h1, h2]
    · cases tr <;> simp [ask_for_assets, hb, h1, h2]

/-- C1: a rate-limit check admits iff the observed (capped) count is
strictly below the scope's maxClaims: denial at the IP check happens iff
the IP count reached 3, denial at the wallet check iff the IP count was
below 3 and the wallet count reached 1, and the ledger records are
written iff both counts are below their maxima; concretely, a first
wallet claim in a fresh window is admitted and a second within the same
window is denied, and from one IP the first three claims are admitted
and the fourth is denied. -/
theorem C1_admit_iff_count_below_max (balance : Int) (ipT wT : List ClaimRecord)
    (s : Option Tx) (raw : String) (xRealIp : Option String) (now : Int)
    (tr : TransferResult) (hb : ¬ balance < 10000) :
    ((ask_for_assets balance (some raw) xRealIp now tr ⟨ipT, wT, s⟩
        = (⟨ipT, wT, none⟩, .rendered ⟨true, some ipDeniedMsg⟩))
      ↔ 3 ≤ countSince ipT (headerStr xRealIp) (now - week_in_sec))
    ∧
    ((ask_for_assets balance (some raw) xRealIp now tr ⟨ipT, wT, s⟩
        = (⟨ipT, wT, none⟩, .rendered ⟨true, some walletDeniedMsg⟩))
      ↔ (countSince ipT (headerStr xRealIp) (now - week_in_sec) < 3
          ∧ 1 ≤ countSince wT (strip raw) (now - week_in_sec)))
    ∧
    (((ask_for_assets balance (some raw) xRealIp now tr ⟨ipT, wT, s⟩).1.ipTable
        = ipT ++ [⟨headerStr xRealIp, now, now + week_in_sec⟩]
      ∧ (ask_for_assets balance (some raw) xRealIp now tr ⟨ipT, wT, s⟩).1.walletTable
        = wT ++ [⟨strip raw, now, now + week_in_sec⟩])
      ↔ (countSince ipT (headerStr xRealIp) (now - week_in_sec) < 3
          ∧ countSince wT (strip raw) (now - week_in_sec) < 1))
    ∧
    ((runClaim "WalletA" "1.2.3.4" 0 "t1" ⟨[], [], none⟩).2 = .redirected "/success"
      ∧ (runClaim "WalletA" "5.6.7.8" 3600 "t2"
          (runClaim "WalletA" "1.2.3.4" 0 "t1" ⟨[], [], none⟩).1).2
        = .rendered ⟨true, some walletDeniedMsg⟩)
    ∧
    ((runClaim "WalletB" "9.9.9.9" 0 "u1" ⟨[], [], none⟩).2 = .redirected "/success"
      ∧ (runClaim "WalletC" "9.9.9.9" 1 "u2"
          (runClaim "WalletB" "9.9.9.9" 0 "u1" ⟨[], [], none⟩).1).2 = .redirected "/success"
      ∧ (runClaim "WalletD" "9.9.9.9" 2 "u3"
          (runClaim "WalletC" "9.9.9.9" 1 "u2"
            (runClaim "WalletB" "9.9.9.9" 0 "u1" ⟨[], [], none⟩).1).1).2
        = .redirected "/success"
      ∧ (runClaim "WalletE" "9.9.9.9" 3 "u4"
          (runClaim "WalletD" "9.9.9.9" 2 "u3"
            (runClaim "WalletC" "9.9.9.9" 1 "u2"
              (runClaim "WalletB" "9.9.9.9" 0 "u1" ⟨[], [], none⟩).1).1).1).2
        = .rendered ⟨true, some ipDeniedMsg⟩) := by
  rw [ask_spec balance raw xRealIp now tr ⟨ipT, wT, s⟩ hb]
  refine ⟨?_, ?_, ?_, by decide, by decide⟩
  · by_cases h1 : 3 ≤ countSince ipT (headerStr xRealIp) (now - week_in_sec)
    · simp [h1]
    · by_cases h2 : 1 ≤ countSince wT (strip raw) (now - week_in_sec)
      · simp [h1, h2, ipDeniedMsg, walletDeniedMsg]
      · cases tr <;> simp [h1, h2, ipDeniedMsg, txErrorMsg]
  · by_cases h1 : 3 ≤ countSince ipT (headerStr xRealIp) (now - week_in_sec)
    · simp [h1, ipDeniedMsg, walletDeniedMsg]
    · by_cases h2 : 1 ≤ countSince wT (strip raw) (now - week_in_sec)
      · simp [h1, h2]
        omega
      · cases tr <;> simp [h1, h2, walletDeniedMsg, txErrorMsg]
  · by_cases h1 : 3 ≤ countSince ipT (headerStr xRealIp) (now - week_in_sec)
    · simp [h1]
    · by_cases h2 : 1 ≤ countSince wT (strip raw) (now - week_in_sec)
      · simp [h1, h2]
        omega
      · cases tr <;> simp [h1, h2] <;> omega

/-- Witness for C1 at balance 10000, empty tables, wallet "w", absent
header, instant 0, successful transfer. -/
theorem C1_admit_iff_count_below_max_witness :
    ¬ (10000 : Int) < 10000
    ∧ (((ask_for_assets 10000 (some "w") none 0 (.invocationTx ⟨"t"⟩)
          ⟨[], [], none⟩).1.ipTable = [] ++ [⟨headerStr none, 0, 0 + week_in_sec⟩]
        ∧ (ask_for_assets 10000 (some "w") none 0 (.invocationTx ⟨"t"⟩)
            ⟨[], [], none⟩).1.walletTable = [] ++ [⟨strip "w", 0, 0 + week_in_sec⟩])
        ↔ (countSince [] (headerStr none) (0 - week_in_sec) < 3
            ∧ countSince [] (strip "w") (0 - week_in_sec) < 1)) :=
  ⟨by decide,
   (C1_admit_iff_count_below_max 10000 [] [] none "w" none 0
      (.invocationTx ⟨"t"⟩) (by decide)).2.2.1⟩

/-- C2 counterexample: a record whose timestamp is exactly now minus the
7-day window is NOT counted (the query condition is strict), while the
claim requires it to be counted: with now = 604800 the single record at
timestamp 0 = now - week_in_sec yields count 0, not 1. -/
theorem C2_boundary_record_not_counted :
    countSince [⟨"a", 0, 604800⟩] "a" ((604800 : Int) - week_in_sec) = 0
    ∧ ¬ countSince [⟨"a", 0, 604800⟩] "a" ((604800 : Int) - week_in_sec) = 1 := by
  decide

/-- C2 amended: the count used by the rate-limit check equals the number
of records of that identity with timestamp strictly greater than
now - window, capped at the scan cap of 10; in particular appending a
record timestamped exactly at now - window never changes the count. -/
theorem C2_count_is_strictly_newer_records (tbl : List ClaimRecord)
    (ident : String) (now t : Int) :
    countSince tbl ident (now - week_in_sec)
      = min (tbl.countP
          (fun r => r.identity == ident && decide (now - week_in_sec < r.timestamp))) 10
    ∧ countSince (tbl ++ [⟨ident, now - week_in_sec, t⟩]) ident (now - week_in_sec)
      = countSince tbl ident (now - week_in_sec) := by
  constructor
  · rw [countSince, List.countP_eq_length_filter]
  · rw [countSince, countSince, List.filter_append]
    simp

/-- C3: a request that passes the IP check but is denied at the wallet
check leaves both tables exactly as they were (no IP-side record
either), and whenever either table changes, both records were appended
together and both checks had admitted. -/
theorem C3_no_ip_record_on_wallet_denial (balance : Int)
    (ipT wT : List ClaimRecord) (s : Option Tx) (raw : String)
    (xRealIp : Option String) (now : Int) (tr : TransferResult)
    (hb : ¬ balance < 10000) :
    (countSince ipT (headerStr xRealIp) (now - week_in_sec) < 3 →
     1 ≤ countSince wT (strip raw) (now - week_in_sec) →
     ask_for_assets balance (some raw) xRealIp now tr ⟨ipT, wT, s⟩
       = (⟨ipT, wT, none⟩, .rendered ⟨true, some walletDeniedMsg⟩))
    ∧
    ((ask_for_assets balance (some raw) xRealIp now tr ⟨ipT, wT, s⟩).1.ipTable ≠ ipT
      ∨ (ask_for_assets balance (some raw) xRealIp now tr ⟨ipT, wT, s⟩).1.walletTable ≠ wT →
     (ask_for_assets balance (some raw) xRealIp now tr ⟨ipT, wT, s⟩).1.ipTable
        = ipT ++ [⟨headerStr xRealIp, now, now + week_in_sec⟩]
     ∧ (ask_for_assets balance (some raw) xRealIp now tr ⟨ipT, wT, s⟩).1.walletTable
        = wT ++ [⟨strip raw, now, now + week_in_sec⟩]
     ∧ countSince ipT (headerStr xRealIp) (now - week_in_sec) < 3
     ∧ countSince wT (strip raw) (now - week_in_sec) < 1) := by
  rw [ask_spec balance raw xRealIp now tr ⟨ipT, wT, s⟩ hb]
  by_cases h1 : 3 ≤ countSince ipT (headerStr xRealIp) (now - week_in_sec)
  · simp [h1]
  · by_cases h2 : 1 ≤ countSince wT (strip raw) (now - week_in_sec)
    · simp [h1, h2]
    · cases tr <;> simp [h1, h2] <;> omega

/-- Witness for C3: one prior wallet record inside the window, fresh IP
table, balance 10000. -/
theorem C3_no_ip_record_on_wallet_denial_witness :
    ¬ (10000 : Int) < 10000
    ∧ ((countSince [] (headerStr (some "ip")) (2 - week_in_sec) < 3 →
        1 ≤ countSince [⟨"w", 1, 9⟩] (strip "w") (2 - week_in_sec) →
        ask_for_assets 10000 (some "w") (some "ip") 2 (.invocationTx ⟨"t"⟩)
            ⟨[], [⟨"w", 1, 9⟩], none⟩
          = (⟨[], [⟨"w", 1, 9⟩], none⟩, .rendered ⟨true, some walletDeniedMsg⟩))
      ∧
      ((ask_for_assets 10000 (some "w") (some "ip") 2 (.invocationTx ⟨"t"⟩)
            ⟨[], [⟨"w", 1, 9⟩], none⟩).1.ipTable ≠ []
        ∨ (ask_for_assets 10000 (some "w") (some "ip") 2 (.invocationTx ⟨"t"⟩)
            ⟨[], [⟨"w", 1, 9⟩], none⟩).1.walletTable ≠ [⟨"w", 1, 9⟩] →
       (ask_for_assets 10000 (some "w") (some "ip") 2 (.invocationTx ⟨"t"⟩)
            ⟨[], [⟨"w", 1, 9⟩], none⟩).1.ipTable
          = [] ++ [⟨headerStr (some "ip"), 2, 2 + week_in_sec⟩]
       ∧ (ask_for_assets 10000 (some "w") (some "ip") 2 (.invocationTx ⟨"t"⟩)
            ⟨[], [⟨"w", 1, 9⟩], none⟩).1.walletTable
          = [⟨"w", 1, 9⟩] ++ [⟨strip "w", 2, 2 + week_in_sec⟩]
       ∧ countSince [] (headerStr (some "ip")) (2 - week_in_sec) < 3
       ∧ countSince [⟨"w", 1, 9⟩] (strip "w") (2 - week_in_sec) < 1)) :=
  ⟨by decide,
   C3_no_ip_record_on_wallet_denial 10000 [] [⟨"w", 1, 9⟩] none "w" (some "ip") 2
     (.invocationTx ⟨"t"⟩) (by decide)⟩

lemma txErrorMsg_ne_mustInput (d : String) : txErrorMsg d ≠ mustInputMsg := by
  intro h
  have h2 : (txErrorMsg d).data.head? = mustInputMsg.data.head? := by rw [h]
  rw [txErrorMsg, String.data_append] at h2
  have h3 : some 'E' = some 'Y' := by
    calc some 'E' = ("Error constructing transaction: ".data ++ d.data).head? := rfl
    _ = mustInputMsg.data.head? := h2
    _ = some 'Y' := rfl
  exact absurd h3 (by decide)

/-- C4: contrary to the claim, an absent address_to form field is not
denied with the must-supply message: the request renders the default
welcome context with error false (conjunct 1); the must-input message is
never rendered on any input, its guarding None-check being dead since
the context message is always set (conjunct 2); and a blank address is
not rejected either: it passes both checks, commits a record under the
stripped-empty wallet identity, and succeeds (conjunct 3). -/
theorem C4_missing_address_renders_welcome :
    (∀ (xRealIp : Option String) (now : Int) (tr : TransferResult) (st : FaucetState),
      ask_for_assets 10000 none xRealIp now tr st
        = ({ st with sentTx := none }, .rendered ⟨false, some welcomeMsg⟩))
    ∧
    (∀ (balance : Int) (addressArg xRealIp : Option String) (now : Int)
        (tr : TransferResult) (st : FaucetState) (e : Bool),
      (ask_for_assets balance addressArg xRealIp now tr st).2
        ≠ .rendered ⟨e, some mustInputMsg⟩)
    ∧
    ask_for_assets 10000 (some "   ") none 0 (.invocationTx ⟨"t"⟩) ⟨[], [], none⟩
      = (⟨[⟨"None", 0, 604800⟩], [⟨"", 0, 604800⟩], some ⟨"t"⟩⟩,
         .redirected "/success") := by
  refine ⟨fun xRealIp now tr st => rfl, ?_, by decide⟩
  intro balance addressArg xRealIp now tr st e
  by_cases hb : balance < 10000
  · simp [ask_for_assets, hb]
  · cases addressArg with
    | none => simp [ask_for_assets, hb, welcomeMsg, mustInputMsg]
    | some raw =>
      rw [ask_spec balance raw xRealIp now tr st hb]
      by_cases h1 : 3 ≤ countSince st.ipTable (headerStr xRealIp) (now - week_in_sec)
      · simp [h1, ipDeniedMsg, mustInputMsg]
      · by_cases h2 : 1 ≤ countSince st.walletTable (strip raw) (now - week_in_sec)
        · simp [h1, h2, walletDeniedMsg, mustInputMsg]
        · cases tr with
          | invocationTx tx => simp [h1, h2]
          | failed d => simp [h1, h2, txErrorMsg_ne_mustInput d]

/-- C5: with the token balance below the drip amount 10000 the request
is redirected to the index before any rate-limit step: both tables are
left unchanged and the outcome is the same for every ledger content,
address, header, instant and transfer result. -/
theorem C5_low_balance_short_circuit (balance : Int)
    (addressArg xRealIp : Option String) (now : Int) (tr : TransferResult)
    (st : FaucetState) (hb : balance < 10000) :
    ask_for_assets balance addressArg xRealIp now tr st
      = ({ st with sentTx := none }, .redirected "/") := by
  cases addressArg <;> simp [ask_for_assets, hb]

/-- Witness for C5 at the spec's example balance 9999. -/
theorem C5_low_balance_short_circuit_witness :
    (9999 : Int) < 10000
    ∧ ask_for_assets 9999 (some "w") none 0 (.invocationTx ⟨"t"⟩)
        ⟨[], [⟨"w", 0, 1⟩], none⟩
      = (⟨[], [⟨"w", 0, 1⟩], none⟩, .redirected "/") :=
  ⟨by decide,
   C5_low_balance_short_circuit 9999 (some "w") none 0 (.invocationTx ⟨"t"⟩)
     ⟨[], [⟨"w", 0, 1⟩], none⟩ (by decide)⟩

/-- C6: when both checks admit and the transfer then fails, the two
records committed just before are not rolled back: the final state
still holds both appended records and the gateway detail is rendered. -/
theorem C6_no_rollback_on_failed_transfer (balance : Int)
    (ipT wT : List ClaimRecord) (s : Option Tx) (raw : String)
    (xRealIp : Option String) (now : Int) (d : String)
    (hb : ¬ balance < 10000)
    (hip : countSince ipT (headerStr xRealIp) (now - week_in_sec) < 3)
    (hw : countSince wT (strip raw) (now - week_in_sec) < 1) :
    ask_for_assets balance (some raw) xRealIp now (.failed d) ⟨ipT, wT, s⟩
      = (⟨ipT ++ [⟨headerStr xRealIp, now, now + week_in_sec⟩],
          wT ++ [⟨strip raw, now, now + week_in_sec⟩], none⟩,
         .rendered ⟨true, some (txErrorMsg d)⟩) := by
  rw [ask_spec balance raw xRealIp now (.failed d) ⟨ipT, wT, s⟩ hb,
      if_neg (Nat.not_le.mpr hip), if_neg (Nat.not_le.mpr hw)]

/-- Witness for C6: fresh tables, balance 10000, failing transfer. -/
theorem C6_no_rollback_on_failed_transfer_witness :
    ¬ (10000 : Int) < 10000
    ∧ countSince [] (headerStr none) (0 - week_in_sec) < 3
    ∧ countSince [] (strip "w") (0 - week_in_sec) < 1
    ∧ ask_for_assets 10000 (some "w") none 0 (.failed "boom") ⟨[], [], none⟩
      = (⟨[] ++ [⟨headerStr none, 0, 0 + week_in_sec⟩],
          [] ++ [⟨strip "w", 0, 0 + week_in_sec⟩], none⟩,
         .rendered ⟨true, some (txErrorMsg "boom")⟩) :=
  ⟨by decide, by decide, by decide,
   C6_no_rollback_on_failed_transfer 10000 [] [] none "w" none 0 "boom"
     (by decide) (by decide) (by decide)⟩

/-- C7: an IP identity whose window count already reached 3 is denied at
the IP check for every wallet address, every wallet-table content and
every transfer result, with nothing written to either table: the wallet
ledger is never consulted. -/
theorem C7_ip_denial_regardless_of_wallet (balance : Int)
    (ipT : List ClaimRecord) (xRealIp : Option String) (now : Int)
    (hb : ¬ balance < 10000)
    (hip : 3 ≤ countSince ipT (headerStr xRealIp) (now - week_in_sec)) :
    ∀ (raw : String) (wT : List ClaimRecord) (s : Option Tx) (tr : TransferResult),
      ask_for_assets balance (some raw) xRealIp now tr ⟨ipT, wT, s⟩
        = (⟨ipT, wT, none⟩, .rendered ⟨true, some ipDeniedMsg⟩) := by
  intro raw wT s tr
  rw [ask_spec balance raw xRealIp now tr ⟨ipT, wT, s⟩ hb, if_pos hip]

/-- Witness for C7: three prior records of IP "1.2.3.4" in the window;
the fourth claim is denied whatever the wallet table holds. -/
theorem C7_ip_denial_regardless_of_wallet_witness :
    ¬ (10000 : Int) < 10000
    ∧ 3 ≤ countSince [⟨"1.2.3.4", 1, 9⟩, ⟨"1.2.3.4", 2, 9⟩, ⟨"1.2.3.4", 3, 9⟩]
          (headerStr (some "1.2.3.4")) (4 - week_in_sec)
    ∧ ask_for_assets 10000 (some "freshWallet") (some "1.2.3.4") 4
        (.invocationTx ⟨"t"⟩)
        ⟨[⟨"1.2.3.4", 1, 9⟩, ⟨"1.2.3.4", 2, 9⟩, ⟨"1.2.3.4", 3, 9⟩], [], none⟩
      = (⟨[⟨"1.2.3.4", 1, 9⟩, ⟨"1.2.3.4", 2, 9⟩, ⟨"1.2.3.4", 3, 9⟩], [], none⟩,
         .rendered ⟨true, some ipDeniedMsg⟩) :=
  ⟨by decide, by decide,
   C7_ip_denial_regardless_of_wallet 10000
     [⟨"1.2.3.4", 1, 9⟩, ⟨"1.2.3.4", 2, 9⟩, ⟨"1.2.3.4", 3, 9⟩] (some "1.2.3.4") 4
     (by decide) (by decide) "freshWallet" [] none (.invocationTx ⟨"t"⟩)⟩

/-- C8: inserting N window-resident records for an identity yields a
count of at least min(N, 10); the count never exceeds the scan cap 10;
and once the window has elapsed past every record, the count for those
records is 0 again. -/
theorem C8_count_cap_and_window_expiry (tbl : List ClaimRecord)
    (ident : String) (now later : Int)
    (hin : ∀ r ∈ tbl, r.identity = ident ∧ now - week_in_sec < r.timestamp)
    (hout : ∀ r ∈ tbl, r.timestamp ≤ later - week_in_sec) :
    min tbl.length 10 ≤ countSince tbl ident (now - week_in_sec)
    ∧ countSince tbl ident (later - week_in_sec) = 0
    ∧ ∀ since : Int, countSince tbl ident since ≤ 10 := by
  refine ⟨?_, ?_, fun since => Nat.min_le_right _ _⟩
  · have hf : tbl.filter
        (fun r => r.identity == ident && decide (now - week_in_sec < r.timestamp))
        = tbl := by
      rw [List.filter_eq_self]
      intro r hr
      have h := hin r hr
      simp [h.1, h.2]
    rw [countSince, hf]
  · have hf : tbl.filter
        (fun r => r.identity == ident && decide (later - week_in_sec < r.timestamp))
        = [] := by
      rw [List.filter_eq_nil_iff]
      intro r hr
      have h := hout r hr
      simp only [Bool.and_eq_true, beq_iff_eq, decide_eq_true_eq, not_and]
      intro _
      omega
    rw [countSince, hf]
    simp

/-- Witness for C8: two records of identity "i" inside the window at
now = 7; at later = 604807 the window has elapsed past both. -/
theorem C8_count_cap_and_window_expiry_witness :
    (∀ r ∈ [(⟨"i", 5, 9⟩ : ClaimRecord), ⟨"i", 6, 9⟩],
        r.identity = "i" ∧ (7 : Int) - week_in_sec < r.timestamp)
    ∧ (∀ r ∈ [(⟨"i", 5, 9⟩ : ClaimRecord), ⟨"i", 6, 9⟩],
        r.timestamp ≤ (604807 : Int) - week_in_sec)
    ∧ (min ([(⟨"i", 5, 9⟩ : ClaimRecord), ⟨"i", 6, 9⟩].length) 10
        ≤ countSince [⟨"i", 5, 9⟩, ⟨"i", 6, 9⟩] "i" ((7 : Int) - week_in_sec)
      ∧ countSince [⟨"i", 5, 9⟩, ⟨"i", 6, 9⟩] "i" ((604807 : Int) - week_in_sec) = 0
      ∧ ∀ since : Int, countSince [⟨"i", 5, 9⟩, ⟨"i", 6, 9⟩] "i" since ≤ 10) :=
  ⟨by decide, by decide,
   C8_count_cap_and_window_expiry [⟨"i", 5, 9⟩, ⟨"i", 6, 9⟩] "i" 7 604807
     (by decide) (by decide)⟩

/-- C9: an absent x-real-ip header is stringified to the literal "None",
a headerless request behaves exactly like one whose header is the string
"None", and all headerless requests share one IP quota: three headerless
claims from three distinct wallets are admitted and a fourth headerless
claim from yet another wallet is denied at the IP check. -/
theorem C9_missing_header_is_string_None :
    headerStr none = "None"
    ∧ (∀ (balance : Int) (addressArg : Option String) (now : Int)
          (tr : TransferResult) (st : FaucetState),
        ask_for_assets balance addressArg none now tr st
          = ask_for_assets balance addressArg (some "None") now tr st)
    ∧ ((ask_for_assets 10000 (some "W1") none 0 (.invocationTx ⟨"n1"⟩)
          ⟨[], [], none⟩).2 = .redirected "/success"
      ∧ (ask_for_assets 10000 (some "W2") none 1 (.invocationTx ⟨"n2"⟩)
          (ask_for_assets 10000 (some "W1") none 0 (.invocationTx ⟨"n1"⟩)
            ⟨[], [], none⟩).1).2 = .redirected "/success"
      ∧ (ask_for_assets 10000 (some "W3") none 2 (.invocationTx ⟨"n3"⟩)
          (ask_for_assets 10000 (some "W2") none 1 (.invocationTx ⟨"n2"⟩)
            (ask_for_assets 10000 (some "W1") none 0 (.invocationTx ⟨"n1"⟩)
              ⟨[], [], none⟩).1).1).2 = .redirected "/success"
      ∧ (ask_for_assets 10000 (some "W4") none 3 (.invocationTx ⟨"n4"⟩)
          (ask_for_assets 10000 (some "W3") none 2 (.invocationTx ⟨"n3"⟩)
            (ask_for_assets 10000 (some "W2") none 1 (.invocationTx ⟨"n2"⟩)
              (ask_for_assets 10000 (some "W1") none 0 (.invocationTx ⟨"n1"⟩)
                ⟨[], [], none⟩).1).1).1).2
        = .rendered ⟨true, some ipDeniedMsg⟩) := by
  refine ⟨rfl, fun balance addressArg now tr st => rfl, by decide⟩

/-- C10: the stored sent transaction is one-shot: the claim endpoint
behaves independently of any previously stored sent_tx (it resets it on
entry); the success page redirects to the index whenever none is
stored; and rendering a stored transaction resets it, so a second
consecutive visit to the success page redirects to the index. -/
theorem C10_sent_tx_one_shot :
    (∀ (balance : Int) (addressArg xRealIp : Option String) (now : Int)
        (tr : TransferResult) (ipT wT : List ClaimRecord) (s : Option Tx),
      ask_for_assets balance addressArg xRealIp now tr ⟨ipT, wT, s⟩
        = ask_for_assets balance addressArg xRealIp now tr ⟨ipT, wT, none⟩)
    ∧ (∀ st : FaucetState, st.sentTx = none → app_success st = (st, .redirected "/"))
    ∧ (∀ (st : FaucetState) (tx : Tx), st.sentTx = some tx →
        app_success st = ({ st with sentTx := none }, .renderedTx tx)
        ∧ (app_success (app_success st).1).2 = .redirected "/") := by
  refine ⟨fun _ _ _ _ _ _ _ _ => rfl, ?_, ?_⟩
  · intro st h
    simp [app_success, h]
  · intro st tx h
    simp [app_success, h]

/-- Witness for C10 with a stored transaction "t": it is rendered once
and the immediately following visit redirects. -/
theorem C10_sent_tx_one_shot_witness :
    (FaucetState.sentTx ⟨[], [], some ⟨"t"⟩⟩ = some ⟨"t"⟩)
    ∧ app_success ⟨[], [], some ⟨"t"⟩⟩ = (⟨[], [], none⟩, .renderedTx ⟨"t"⟩)
    ∧ (app_success (app_success ⟨[], [], some ⟨"t"⟩⟩).1).2 = .redirected "/" :=
  ⟨rfl,
   (C10_sent_tx_one_shot.2.2 ⟨[], [], some ⟨"t"⟩⟩ ⟨"t"⟩ rfl).1,
   (C10_sent_tx_one_shot.2.2 ⟨[], [], some ⟨"t"⟩⟩ ⟨"t"⟩ rfl).2⟩

end Faucet
